import Mathlib

set_option maxRecDepth 100000

/-!
Verification development for the copy-count monitor repository.

The repository polls a remote trading service, parses nested payloads,
deduplicates records into a store keyed by an MD5 content fingerprint, and
alerts on threshold breaches or repeated failures.  The definitions below
are shallow embeddings of the pure control/data logic of
`api_requests.py`, `copy_deal.py` and `main.py`; external effects
(HTTP responses, JSON decoding outcomes, store contents) are supplied as
explicit oracle inputs.
-/

/-! ## MD5 over byte lists (embedding of `hashlib.md5(...).hexdigest()`) -/

/-- 32-bit truncation. -/
def m32 (x : Nat) : Nat := x % 4294967296

/-- Fuel-bounded bitwise combination of two naturals, least bit first. -/
def bwAux (f : Bool → Bool → Bool) : Nat → Nat → Nat → Nat
  | 0, _, _ => 0
  | fuel + 1, n, m =>
      (if f (n % 2 = 1) (m % 2 = 1) then 1 else 0) + 2 * bwAux f fuel (n / 2) (m / 2)

def land32 (n m : Nat) : Nat := bwAux (fun a b => a && b) 32 n m

def lor32 (n m : Nat) : Nat := bwAux (fun a b => a || b) 32 n m

def lxor32 (n m : Nat) : Nat := bwAux (fun a b => a != b) 32 n m

/-- Bitwise complement within 32 bits (argument assumed < 2^32). -/
def lnot32 (n : Nat) : Nat := 4294967295 - n

/-- Left-rotation of a 32-bit word by `s` places. -/
def rotl32 (x s : Nat) : Nat := m32 (x * 2 ^ s) + x / 2 ^ (32 - s)

/-- The 64 MD5 sine-derived constants. -/
def md5K : List Nat :=
  [0xd76aa478, 0xe8c7b756, 0x242070db, 0xc1bdceee,
   0xf57c0faf, 0x4787c62a, 0xa8304613, 0xfd469501,
   0x698098d8, 0x8b44f7af, 0xffff5bb1, 0x895cd7be,
   0x6b901122, 0xfd987193, 0xa679438e, 0x49b40821,
   0xf61e2562, 0xc040b340, 0x265e5a51, 0xe9b6c7aa,
   0xd62f105d, 0x02441453, 0xd8a1e681, 0xe7d3fbc8,
   0x21e1cde6, 0xc33707d6, 0xf4d50d87, 0x455a14ed,
   0xa9e3e905, 0xfcefa3f8, 0x676f02d9, 0x8d2a4c8a,
   0xfffa3942, 0x8771f681, 0x6d9d6122, 0xfde5380c,
   0xa4beea44, 0x4bdecfa9, 0xf6bb4b60, 0xbebfbc70,
   0x289b7ec6, 0xeaa127fa, 0xd4ef3085, 0x04881d05,
   0xd9d4d039, 0xe6db99e5, 0x1fa27cf8, 0xc4ac5665,
   0xf4292244, 0x432aff97, 0xab9423a7, 0xfc93a039,
   0x655b59c3, 0x8f0ccc92, 0xffeff47d, 0x85845dd1,
   0x6fa87e4f, 0xfe2ce6e0, 0xa3014314, 0x4e0811a1,
   0xf7537e82, 0xbd3af235, 0x2ad7d2bb, 0xeb86d391]

/-- The 64 per-round left-rotation amounts. -/
def md5S : List Nat :=
  [7, 12, 17, 22, 7, 12, 17, 22, 7, 12, 17, 22, 7, 12, 17, 22,
   5, 9, 14, 20, 5, 9, 14, 20, 5, 9, 14, 20, 5, 9, 14, 20,
   4, 11, 16, 23, 4, 11, 16, 23, 4, 11, 16, 23, 4, 11, 16, 23,
   6, 10, 15, 21, 6, 10, 15, 21, 6, 10, 15, 21, 6, 10, 15, 21]

/-- Round function and message index for step `i`. -/
def md5FG (i b c d : Nat) : Nat × Nat :=
  if i < 16 then (lor32 (land32 b c) (land32 (lnot32 b) d), i)
  else if i < 32 then (lor32 (land32 d b) (land32 (lnot32 d) c), (5 * i + 1) % 16)
  else if i < 48 then (lxor32 b (lxor32 c d), (3 * i + 5) % 16)
  else (lxor32 c (lor32 b (lnot32 d)), (7 * i) % 16)

/-- One of the 64 MD5 operations. -/
def md5Step (msg : List Nat) (st : Nat × Nat × Nat × Nat) (i : Nat) :
    Nat × Nat × Nat × Nat :=
  let (a, b, c, d) := st
  let (f, g) := md5FG i b c d
  let f' := m32 (f + a + (md5K.getD i 0) + (msg.getD g 0))
  (d, m32 (b + rotl32 f' (md5S.getD i 0)), b, c)

/-- Split a 64-byte chunk into sixteen little-endian 32-bit words. -/
def md5Words : List Nat → List Nat
  | b0 :: b1 :: b2 :: b3 :: rest =>
      (b0 + 256 * b1 + 65536 * b2 + 16777216 * b3) :: md5Words rest
  | _ => []

/-- Process one 64-byte chunk, updating the running state. -/
def md5Chunk (st : Nat × Nat × Nat × Nat) (chunk : List Nat) :
    Nat × Nat × Nat × Nat :=
  let msg := md5Words chunk
  let (a, b, c, d) := (List.range 64).foldl (md5Step msg) st
  let (a0, b0, c0, d0) := st
  (m32 (a0 + a), m32 (b0 + b), m32 (c0 + c), m32 (d0 + d))

/-- Split a padded message into 64-byte chunks (fuel-bounded, structural). -/
def md5ChunksAux : Nat → List Nat → List (List Nat)
  | 0, _ => []
  | _, [] => []
  | fuel + 1, bs => bs.take 64 :: md5ChunksAux fuel (bs.drop 64)

/-- Split a padded message into 64-byte chunks. -/
def md5Chunks (bs : List Nat) : List (List Nat) := md5ChunksAux bs.length bs

/-- MD5 padding: a 0x80 byte, zeros to 56 mod 64, then the 64-bit
little-endian bit length. -/
def md5Pad (msg : List Nat) : List Nat :=
  let lenBits := (8 * msg.length) % 2 ^ 64
  let zeros := (119 - msg.length % 64) % 64
  msg ++ [0x80] ++ List.replicate zeros 0 ++
    (List.range 8).map (fun i => lenBits / 256 ^ i % 256)

/-- Little-endian hexadecimal rendering of one 32-bit word. -/
def word2hex (w : Nat) : List Char :=
  (List.range 4).flatMap (fun i =>
    let byte := w / 256 ^ i % 256
    [Nat.digitChar (byte / 16), Nat.digitChar (byte % 16)])

/-- MD5 digest of a byte list, as a lowercase hex string. -/
def md5Hex (msg : List Nat) : String :=
  let init := (0x67452301, 0xefcdab89, 0x98badcfe, 0x10325476)
  let (a, b, c, d) := (md5Chunks (md5Pad msg)).foldl md5Chunk init
  String.mk (word2hex a ++ word2hex b ++ word2hex c ++ word2hex d)

/-- UTF-8 encoding of one character as bytes. -/
def utf8Char (c : Char) : List Nat :=
  let n := c.toNat
  if n < 0x80 then [n]
  else if n < 0x800 then [0xc0 + n / 64, 0x80 + n % 64]
  else if n < 0x10000 then
    [0xe0 + n / 4096, 0x80 + n / 64 % 64, 0x80 + n % 64]
  else
    [0xf0 + n / 262144, 0x80 + n / 4096 % 64, 0x80 + n / 64 % 64, 0x80 + n % 64]

/-- UTF-8 encoding of a string as bytes (embedding of `text.encode("utf-8")`). -/
def utf8Bytes (s : String) : List Nat := s.data.flatMap utf8Char

/-- Embedding of `CopyDeal.md5_encrypt`: UTF-8 encode, MD5, hex digest. -/
def md5_encrypt (text : String) : String := md5Hex (utf8Bytes text)

/-! ## Records as Python dicts and the content fingerprint (`copy_deal.py`) -/

/-- A scalar field value of a record, as found in the decoded JSON dicts. -/
inductive PyVal where
  | VInt (n : Int)
  | VStr (s : String)
deriving DecidableEq, Repr

/-- A record: a Python dict as an insertion-ordered association list. -/
abbrev PyDict := List (String × PyVal)

/-- Python `repr` of a scalar value. -/
def pyRepr : PyVal → String
  | .VInt n => toString n
  | .VStr s => "'" ++ s ++ "'"

/-- Python `str()` of a dict: insertion-ordered `\x7b'k': v, ...\x7d`. -/
def pyStrDict (d : PyDict) : String :=
  "\x7b" ++ String.intercalate ", "
    (d.map (fun p => "'" ++ p.1 ++ "': " ++ pyRepr p.2)) ++ "\x7d"

/-- The record fingerprint: `md5_encrypt(str(each_data))`. -/
def fingerprint (r : PyDict) : String := md5_encrypt (pyStrDict r)

/-- Python dict lookup `d.get(k)`. -/
def pyGet (d : PyDict) (k : String) : Option PyVal :=
  (d.find? (fun p => p.1 = k)).map (fun p => p.2)

/-- Python dict lookup with default, `d.get(k, dflt)`. -/
def pyGetD (d : PyDict) (k : String) (dflt : PyVal) : PyVal :=
  (pyGet d k).getD dflt

/-- Python `d[k] = v`: overwrite in place if `k` exists, else append. -/
def dictSet (d : PyDict) (k : String) (v : PyVal) : PyDict :=
  if d.any (fun p => p.1 = k) then d.map (fun p => if p.1 = k then (k, v) else p)
  else d ++ [(k, v)]

/-- Two dicts carry the same field-name-to-value mapping (order ignored). -/
def sameMapping (d1 d2 : PyDict) : Bool :=
  (d1.all (fun p => pyGet d2 p.1 = some p.2)) &&
  (d2.all (fun p => pyGet d1 p.1 = some p.2))

/-! ## The dedup store and `CopyDeal.get_data_insert` -/

/-- The MongoDB collection, modelled as an `_id`-keyed association list in
insertion order. -/
abbrev Store := List (String × PyDict)

/-- `self.db.find_one(\x7b'_id': id\x7d)`. -/
def storeLookup (id : String) (st : Store) : Option PyDict :=
  (st.find? (fun e => e.1 = id)).map (fun e => e.2)

/-- The ids present in the store. -/
def storeKeys (st : Store) : List String := st.map (fun e => e.1)

/-- Outbound DingTalk messages emitted by the deal-ingestion loop. -/
inductive DealAlert where
  | critical
  | trade (symbol side avgPrice executedQty : PyVal)
deriving DecidableEq, Repr

/-- Body of the per-record loop in `get_data_insert` (copy_deal.py lines
77-94): fingerprint the record; if an entry with that `_id` exists, skip;
otherwise store the record under `_id = fingerprint` and emit a trade
alert. -/
def ingestOne (st : Store) (r : PyDict) : Store × List DealAlert :=
  let fp := fingerprint r
  match storeLookup fp st with
  | some _ => (st, [])
  | none =>
      let stored := dictSet r "_id" (.VStr fp)
      (st ++ [(fp, stored)],
       [.trade (pyGetD stored "symbol" (.VStr "N/A"))
          (pyGetD stored "side" (.VStr "N/A"))
          (pyGetD stored "avgPrice" (.VStr "N/A"))
          (pyGetD stored "executedQty" (.VStr "N/A"))])

/-- Ingest a fetched batch of records in order. -/
def ingestList (st : Store) (rs : List PyDict) : Store × List DealAlert :=
  rs.foldl (fun acc r =>
    let (st', as) := ingestOne acc.1 r
    (st', acc.2 ++ as)) (st, [])

/-- Ingest the same single record `n` times into a store. -/
def ingestNTimes : Nat → PyDict → Store → Store
  | 0, _, st => st
  | n + 1, r, st => ingestNTimes n r (ingestOne st r).1

/-- Result of running the `get_data_insert` loop against a finite oracle of
fetch outcomes: final store, emitted alerts, whether the loop exited via
`break`, and the final retry counter. -/
structure IngestRun where
  store : Store
  alerts : List DealAlert
  halted : Bool
  retryCount : Nat
deriving DecidableEq, Repr

/-- Python truthiness of `get_deal`'s result: `None` and `[]` are falsy. -/
def fetchFalsy : Option (List PyDict) → Bool
  | none => true
  | some l => l.isEmpty

/-- The `while True` loop of `CopyDeal.get_data_insert` (copy_deal.py lines
59-95), driven by an oracle listing each cycle's `get_deal` result.  On a
falsy result the retry counter increments; when it reaches 5 the loop sends
one critical alert and breaks.  A truthy result ingests the batch; the
retry counter is never reset.  An exhausted oracle means the loop is still
running. -/
def getDataInsertLoop : List (Option (List PyDict)) → Nat → Store → IngestRun
  | [], rc, st => ⟨st, [], false, rc⟩
  | o :: rest, rc, st =>
      if fetchFalsy o then
        let rc' := rc + 1
        if 5 ≤ rc' then ⟨st, [.critical], true, rc'⟩
        else
          let r := getDataInsertLoop rest rc' st
          ⟨r.store, r.alerts, r.halted, r.retryCount⟩
      else
        let (st', as) := ingestList st (o.getD [])
        let r := getDataInsertLoop rest rc st'
        ⟨r.store, as ++ r.alerts, r.halted, r.retryCount⟩

/-- `get_data_insert` starts with `retry_count = 0` and whatever the store
already contains. -/
def getDataInsert (oracle : List (Option (List PyDict))) (st : Store) : IngestRun :=
  getDataInsertLoop oracle 0 st

/-! ## The retrying fetcher (`api_requests.fetch_binance_lead_details`) -/

/-- What one HTTP attempt does, as seen by the caller of `requests.get`:
a response with a status code and body text, or one of the exceptions
`ConnectionError`, `Timeout`, or another `RequestException`. -/
inductive AttemptOutcome where
  | resp (status : Nat) (body : String)
  | connErr
  | timeoutErr
  | reqErr
deriving DecidableEq, Repr

/-- The retryable HTTP status set of api_requests.py lines 99 and 265. -/
def retryableStatus (s : Nat) : Bool :=
  s = 429 || s = 500 || s = 502 || s = 503 || s = 504

/-- `response.raise_for_status()` raises `HTTPError` exactly for client and
server error codes, 400-599. -/
def raisesForStatus (s : Nat) : Bool := 400 ≤ s && s < 600

/-- Result of one whole fetch call: the returned value (`some (status, text)`
on success, `none` for a `None` return), the number of attempts made, and
the sequence of backoff sleeps taken. -/
structure FetchResult where
  outcome : Option (Nat × String)
  attempts : Nat
  sleeps : List ℚ
deriving DecidableEq, Repr

/-- Account one more attempt and a backoff sleep of `backoff * 2 ^ attempt`
in front of a recursive result. -/
def retryStep (backoff : ℚ) (attempt : Nat) (r : FetchResult) : FetchResult :=
  ⟨r.outcome, r.attempts + 1, backoff * 2 ^ attempt :: r.sleeps⟩

/-- The retry loop of `fetch_binance_lead_details` (api_requests.py lines
84-127), driven by an oracle giving each attempt's outcome.  Fuel counts the
remaining iterations of `range(max_retries + 1)`; an exhausted loop returns
`None` (line 127). -/
def fetchAux (oracle : Nat → AttemptOutcome) (maxRetries : Nat) (backoff : ℚ) :
    Nat → Nat → FetchResult
  | _, 0 => ⟨none, 0, []⟩
  | attempt, fuel + 1 =>
      match oracle attempt with
      | .resp s body =>
          if raisesForStatus s then
            if retryableStatus s = true ∧ attempt < maxRetries then
              retryStep backoff attempt
                (fetchAux oracle maxRetries backoff (attempt + 1) fuel)
            else ⟨none, 1, []⟩
          else ⟨some (s, body), 1, []⟩
      | .connErr =>
          if attempt < maxRetries then
            retryStep backoff attempt
              (fetchAux oracle maxRetries backoff (attempt + 1) fuel)
          else ⟨none, 1, []⟩
      | .timeoutErr =>
          if attempt < maxRetries then
            retryStep backoff attempt
              (fetchAux oracle maxRetries backoff (attempt + 1) fuel)
          else ⟨none, 1, []⟩
      | .reqErr => ⟨none, 1, []⟩

/-- Embedding of `fetch_binance_lead_details`: run the loop from attempt 0
with `max_retries + 1` iterations available. -/
def fetch_binance_lead_details (oracle : Nat → AttemptOutcome)
    (maxRetries : Nat) (backoff : ℚ) : FetchResult :=
  fetchAux oracle maxRetries backoff 0 (maxRetries + 1)

/-! ## JSON values and `api_requests.get_deal` -/

/-- A decoded JSON value (numbers restricted to the integers that occur in
this service's payloads). -/
inductive JVal where
  | jnull
  | jbool (b : Bool)
  | jnum (n : Int)
  | jstr (s : String)
  | jarr (xs : List JVal)
  | jobj (fields : List (String × JVal))

/-- Outcome of decoding a text as JSON: `json.loads` / `response.json()`
either fails or yields a value. -/
inductive JsonText where
  | invalid
  | ok (v : JVal)

/-- Lookup in a decoded JSON object, Python `d.get(k)`. -/
def jGet (fields : List (String × JVal)) (k : String) : Option JVal :=
  (fields.find? (fun p => p.1 = k)).map (fun p => p.2)

/-- The Python exceptions a subscript can raise. -/
inductive PyExn where
  | keyError
  | indexError
  | typeError
deriving DecidableEq, Repr

/-- Python subscript `v[k]` with a string key: `KeyError` on a dict missing
the key, `TypeError` on any non-dict. -/
def jIndexStr : JVal → String → Except PyExn JVal
  | .jobj fields, k =>
      match jGet fields k with
      | some v => .ok v
      | none => .error .keyError
  | _, _ => .error .typeError

/-- Python subscript `v[i]` with an integer index: list and string indexing
with `IndexError` out of range, `KeyError` on a string-keyed dict, and
`TypeError` on scalars. -/
def jIndexNat : JVal → Nat → Except PyExn JVal
  | .jarr xs, i =>
      match xs.get? i with
      | some v => .ok v
      | none => .error .indexError
  | .jobj _, _ => .error .keyError
  | .jstr s, i =>
      match s.data.get? i with
      | some c => .ok (.jstr (String.mk [c]))
      | none => .error .indexError
  | _, _ => .error .typeError

/-- What one `requests.post` attempt in `get_deal` produces: a response with
a status and a JSON-decoding outcome for its body, or a transport
exception. -/
inductive GOutcome where
  | resp (status : Nat) (body : JsonText)
  | connErr
  | timeoutErr
  | reqErr

/-- What a whole `get_deal` call does at its boundary: return a value
(the `list` payload), return `None`, or let an exception escape. -/
inductive GetDealValue where
  | value (v : JVal)
  | failure
  | exc (name : String)

/-- Python `result.get("code") != "000000"` is `False` exactly when the
value is the string `"000000"`. -/
def isCode000000 : Option JVal → Bool
  | some (.jstr s) => s = "000000"
  | _ => false

/-- `get_deal`'s envelope handling after a non-raising status
(api_requests.py lines 254-262): a JSON decode failure is caught and
returns `None`; `.get` on a non-dict raises `AttributeError`; a `code`
other than `"000000"` returns `None`; otherwise
`result.get("data", \x7b\x7d)['list']` is returned, and its `KeyError` or
`TypeError` is not caught by any handler. -/
def getDealEnvelope : JsonText → GetDealValue
  | .invalid => .failure
  | .ok (.jobj fields) =>
      if isCode000000 (jGet fields "code") then
        match jIndexStr ((jGet fields "data").getD (.jobj [])) "list" with
        | .ok lst => .value lst
        | .error .keyError => .exc "KeyError"
        | .error _ => .exc "TypeError"
      else .failure
  | .ok _ => .exc "AttributeError"

/-- Result of one whole `get_deal` call. -/
structure GetDealResult where
  outcome : GetDealValue
  attempts : Nat
  sleeps : List ℚ

/-- Account one more attempt and a backoff sleep in `get_deal`'s loop. -/
def gRetryStep (backoff : ℚ) (attempt : Nat) (r : GetDealResult) : GetDealResult :=
  ⟨r.outcome, r.attempts + 1, backoff * 2 ^ attempt :: r.sleeps⟩

/-- The retry loop of `get_deal` (api_requests.py lines 239-296), same
retry/backoff structure as the fetcher plus the envelope handling. -/
def getDealAux (oracle : Nat → GOutcome) (maxRetries : Nat) (backoff : ℚ) :
    Nat → Nat → GetDealResult
  | _, 0 => ⟨.failure, 0, []⟩
  | attempt, fuel + 1 =>
      match oracle attempt with
      | .resp s body =>
          if raisesForStatus s then
            if retryableStatus s = true ∧ attempt < maxRetries then
              gRetryStep backoff attempt
                (getDealAux oracle maxRetries backoff (attempt + 1) fuel)
            else ⟨.failure, 1, []⟩
          else ⟨getDealEnvelope body, 1, []⟩
      | .connErr =>
          if attempt < maxRetries then
            gRetryStep backoff attempt
              (getDealAux oracle maxRetries backoff (attempt + 1) fuel)
          else ⟨.failure, 1, []⟩
      | .timeoutErr =>
          if attempt < maxRetries then
            gRetryStep backoff attempt
              (getDealAux oracle maxRetries backoff (attempt + 1) fuel)
          else ⟨.failure, 1, []⟩
      | .reqErr => ⟨.failure, 1, []⟩

/-- Embedding of `get_deal`. -/
def get_deal (oracle : Nat → GOutcome) (maxRetries : Nat) (backoff : ℚ) :
    GetDealResult :=
  getDealAux oracle maxRetries backoff 0 (maxRetries + 1)

/-! ## The embedded-JSON parser (`api_requests.parse_binance_lead_data`) -/

/-- The fetched HTML document, as BeautifulSoup exposes it to this code:
the elements by id, each with its text and that text's JSON-decoding
outcome. -/
abbrev Document := List (String × JsonText)

/-- The fixed extraction path of api_requests.py lines 175-177. -/
def appDataPath (v : JVal) : Except PyExn JVal := do
  let v1 ← jIndexStr v "appState"
  let v2 ← jIndexStr v1 "loader"
  let v3 ← jIndexStr v2 "dataByRouteId"
  let v4 ← jIndexStr v3 "d6a9"
  let v5 ← jIndexStr v4 "dehydratedState"
  let v6 ← jIndexStr v5 "queries"
  let v7 ← jIndexNat v6 1
  let v8 ← jIndexStr v7 "state"
  let v9 ← jIndexStr v8 "data"
  jIndexStr v9 "data"

/-- The dict `parse_binance_lead_data` returns on success. -/
structure ParsedLead where
  lead_id : String
  current_copy_count : JVal
  user_data : JVal

/-- Embedding of `parse_binance_lead_data` (api_requests.py lines 130-200)
from the fetch outcome on: a failed fetch, a missing `__APP_DATA` element,
an invalid JSON text, a failing path traversal (`KeyError`/`IndexError`
caught at line 178, `TypeError`/`AttributeError` caught by the outer
handler at line 198), and a missing or null `currentCopyCount` all return
`None`; only a complete success returns a dict. -/
def parse_binance_lead_data (leadId : String) (fetched : Option Document) :
    Option ParsedLead :=
  match fetched with
  | none => none
  | some doc =>
      match doc.find? (fun e => e.1 = "__APP_DATA") with
      | none => none
      | some (_, .invalid) => none
      | some (_, .ok appData) =>
          match appDataPath appData with
          | .error _ => none
          | .ok userDict =>
              match userDict with
              | .jobj fields =>
                  match jGet fields "currentCopyCount" with
                  | none => none
                  | some .jnull => none
                  | some c => some ⟨leadId, c, userDict⟩
              | _ => none

/-! ## The threshold monitor loop (`main.main`) -/

/-- Outbound DingTalk messages the monitor can emit in one cycle, carrying
the data interpolated into the message text. -/
inductive MonAlert where
  | warning (value : Int)
  | errorAlert (count : Nat)
  | critical (count : Nat)
deriving DecidableEq, Repr

/-- The monitor's per-target mutable state. -/
structure MonState where
  errorCount : Nat
  lastValue : Option Int
deriving DecidableEq, Repr

/-- One cycle of `main`'s loop (main.py lines 58-100): a successful parse
resets the error count, records the value, and warns iff it is below the
threshold; a failed cycle increments the count, always emits the error
alert, and additionally the critical alert once the count reaches
`max_error_count`. -/
def monStep (threshold : Int) (maxErrorCount : Nat) (st : MonState)
    (result : Option Int) : MonState × List MonAlert :=
  match result with
  | some v =>
      (⟨0, some v⟩, if v < threshold then [.warning v] else [])
  | none =>
      let c := st.errorCount + 1
      (⟨c, st.lastValue⟩,
       .errorAlert c :: (if maxErrorCount ≤ c then [.critical c] else []))

/-- Run the monitor over a finite sequence of cycle outcomes, collecting
each cycle's alerts. -/
def monRun (threshold : Int) (maxErrorCount : Nat) (st : MonState) :
    List (Option Int) → MonState × List (List MonAlert)
  | [] => (st, [])
  | r :: rest =>
      let (st', as) := monStep threshold maxErrorCount st r
      let (stf, ass) := monRun threshold maxErrorCount st' rest
      (stf, as :: ass)

/-- `main` starts with `error_count = 0` and no recorded value, and uses
`threshold = 1000`, `max_error_count = 5`. -/
def monInit : MonState := ⟨0, none⟩

/-- RFC 1321 test vector: the MD5 of the empty string. -/
theorem md5_empty_vector : md5_encrypt "" = "d41d8cd98f00b204e9800998ecf8427e" := by
  decide

/-- RFC 1321 test vector: the MD5 of "abc". -/
theorem md5_abc_vector : md5_encrypt "abc" = "900150983cd24fb0d6963f7d28e17f72" := by
  decide

/-! ## Claims about the threshold monitor -/

/-- Claim C7: on every failing cycle the monitor increments
`consecutive_error_count` and emits an error alert carrying the new count;
it additionally emits the critical alert exactly when the count has reached
`max_error_count`; any success resets the count to 0; and with
`max_error_count = 5` the fifth consecutive failure is the first cycle that
also emits the critical alert. -/
theorem spec_C7_failure_counting :
    (∀ (t : Int) (mx : Nat) (st : MonState),
      ((monStep t mx st none).1).errorCount = st.errorCount + 1) ∧
    (∀ (t : Int) (mx : Nat) (st : MonState),
      MonAlert.errorAlert (st.errorCount + 1) ∈ (monStep t mx st none).2) ∧
    (∀ (t : Int) (mx : Nat) (st : MonState),
      MonAlert.critical (st.errorCount + 1) ∈ (monStep t mx st none).2 ↔
        mx ≤ st.errorCount + 1) ∧
    (∀ (t : Int) (mx : Nat) (st : MonState) (v : Int),
      ((monStep t mx st (some v)).1).errorCount = 0) ∧
    (monRun 1000 5 monInit [none, none, none, none, none]).2 =
      [[.errorAlert 1], [.errorAlert 2], [.errorAlert 3], [.errorAlert 4],
       [.errorAlert 5, .critical 5]] := by
  refine ⟨?_, ?_, ?_, ?_, by decide⟩
  · intro t mx st; simp [monStep]
  · intro t mx st; simp [monStep]
  · intro t mx st
    by_cases h : mx ≤ st.errorCount + 1 <;> simp [monStep, h]
  · intro t mx st v; simp [monStep]

/-- Claim C8: on every successfully parsed cycle the monitor resets the
error count to 0, records the value as `last_value`, and emits a warning
alert carrying the value exactly when the value is below the threshold;
for the value sequence `[1500, 900, 1200]` against threshold 1000, only the
second cycle warns. -/
theorem spec_C8_threshold_warning :
    (∀ (t : Int) (mx : Nat) (st : MonState) (v : Int),
      (monStep t mx st (some v)).1 = ⟨0, some v⟩) ∧
    (∀ (t : Int) (mx : Nat) (st : MonState) (v : Int),
      MonAlert.warning v ∈ (monStep t mx st (some v)).2 ↔ v < t) ∧
    (monRun 1000 5 monInit [some 1500, some 900, some 1200]).2 =
      [[], [.warning 900], []] := by
  refine ⟨?_, ?_, by decide⟩
  · intro t mx st v; simp [monStep]
  · intro t mx st v
    by_cases h : v < t <;> simp [monStep, h]

/-! ## Claims about the deal-ingestion loop's retry counter -/

/-- Claim C9 counterexample: after five (cumulative) fetch failures the
`get_data_insert` loop does not merely skip that cycle's ingestion and keep
looping — it `break`s out of the `while True` loop entirely: with two more
cycles' worth of outcomes still available, the run is halted with only the
five failures consumed. -/
theorem spec_C9_counterexample :
    (getDataInsert (List.replicate 7 none) []).halted = true ∧
    (getDataInsert (List.replicate 7 none) []).retryCount = 5 := by
  constructor <;> rfl

/-- Claim C9 as amended: when the accumulated fetch-failure counter reaches
5, the loop emits exactly one critical alert and exits the `while True`
loop entirely — whatever outcomes would have followed are never processed,
and the store is left as it was. -/
theorem spec_C9_amended (rest : List (Option (List PyDict))) (st : Store) :
    getDataInsertLoop (none :: none :: none :: none :: none :: rest) 0 st =
      ⟨st, [.critical], true, 5⟩ := rfl

/-- Claim C10: the fetch-failure retry counter of `get_data_insert` is
never reset: it never decreases across any run, and on a concrete run whose
five failures are separated by successful ingestion cycles the fifth
accumulated failure still emits the critical alert and exits the loop. -/
theorem spec_C10_counter_never_reset :
    (∀ (oracle : List (Option (List PyDict))) (rc : Nat) (st : Store),
      rc ≤ (getDataInsertLoop oracle rc st).retryCount) ∧
    getDataInsertLoop
      [none, some [[]], none, some [[]], none, some [[]], none, some [[]],
       none] 0 [] =
      ⟨[("99914b932bd37a50b983c5e7c90ae93b",
         [("_id", .VStr "99914b932bd37a50b983c5e7c90ae93b")])],
       [.trade (.VStr "N/A") (.VStr "N/A") (.VStr "N/A") (.VStr "N/A"),
        .critical],
       true, 5⟩ := by
  constructor
  · intro oracle
    induction oracle with
    | nil => intro rc st; simp [getDataInsertLoop]
    | cons o rest ih =>
        intro rc st
        simp only [getDataInsertLoop]
        by_cases hf : fetchFalsy o
        · simp only [hf, if_true]
          by_cases h5 : 5 ≤ rc + 1
          · simp [h5]
          · simpa [h5] using le_trans (Nat.le_succ rc) (ih (rc + 1) st)
        · simp only [hf, if_false]
          exact ih rc _
  · rfl

/-! ## Claim C1: dedup ingest -/

/-- The store-only effect of ingesting a batch. -/
def ingestStore (st : Store) (rs : List PyDict) : Store :=
  rs.foldl (fun s r => (ingestOne s r).1) st

theorem storeLookup_isSome_iff (id : String) (st : Store) :
    (storeLookup id st).isSome = true ↔ id ∈ storeKeys st := by
  simp [storeLookup, storeKeys, List.find?_isSome, List.mem_map]

theorem storeLookup_eq_none_iff (id : String) (st : Store) :
    storeLookup id st = none ↔ id ∉ storeKeys st := by
  rw [← Option.not_isSome_iff_eq_none, not_iff_not, Option.isSome_iff_exists]
  constructor
  · rintro ⟨d, hd⟩
    exact (storeLookup_isSome_iff id st).1 (by rw [hd]; rfl)
  · intro h
    rcases Option.isSome_iff_exists.1 ((storeLookup_isSome_iff id st).2 h) with ⟨d, hd⟩
    exact ⟨d, hd⟩

theorem ingestOne_of_found {r : PyDict} {st : Store}
    (h : (storeLookup (fingerprint r) st).isSome = true) :
    ingestOne st r = (st, []) := by
  rcases Option.isSome_iff_exists.1 h with ⟨d, hd⟩
  simp [ingestOne, hd]

theorem ingestOne_of_absent {r : PyDict} {st : Store}
    (h : storeLookup (fingerprint r) st = none) :
    ingestOne st r =
      (st ++ [(fingerprint r, dictSet r "_id" (.VStr (fingerprint r)))],
       (fun stored =>
         [DealAlert.trade (pyGetD stored "symbol" (.VStr "N/A"))
            (pyGetD stored "side" (.VStr "N/A"))
            (pyGetD stored "avgPrice" (.VStr "N/A"))
            (pyGetD stored "executedQty" (.VStr "N/A"))])
        (dictSet r "_id" (.VStr (fingerprint r)))) := by
  simp [ingestOne, h]

theorem ingestOne_fst_mem (fp : String) (r : PyDict) (st : Store) :
    fp ∈ storeKeys (ingestOne st r).1 ↔
      fp ∈ storeKeys st ∨ fp = fingerprint r := by
  cases hl : storeLookup (fingerprint r) st with
  | none =>
      rw [ingestOne_of_absent hl]
      simp [storeKeys]
  | some d =>
      rw [ingestOne_of_found (by rw [hl]; rfl)]
      simp only [iff_self_or]
      intro he
      rw [he]
      exact (storeLookup_isSome_iff _ st).1 (by rw [hl]; rfl)

theorem ingestOne_fst_nodup (r : PyDict) (st : Store)
    (h : (storeKeys st).Nodup) : (storeKeys (ingestOne st r).1).Nodup := by
  cases hl : storeLookup (fingerprint r) st with
  | none =>
      rw [ingestOne_of_absent hl]
      have hnm : fingerprint r ∉ storeKeys st :=
        (storeLookup_eq_none_iff _ st).1 hl
      simp only [storeKeys, List.map_append]
      refine List.Nodup.append h (List.nodup_singleton _) ?_
      intro a ha hb
      simp only [List.map_cons, List.map_nil, List.mem_singleton] at hb
      exact hnm (hb ▸ ha)
  | some d =>
      rw [ingestOne_of_found (by rw [hl]; rfl)]
      exact h

theorem ingestOne_absorb (r : PyDict) (st : Store) :
    ingestOne (ingestOne st r).1 r = ((ingestOne st r).1, []) := by
  cases hl : storeLookup (fingerprint r) st with
  | none =>
      rw [ingestOne_of_absent hl]
      apply ingestOne_of_found
      have hf : (List.find? (fun p => p.1 = fingerprint r) st) = none := by
        simpa [storeLookup] using hl
      simp [storeLookup, List.find?_append, hf]
  | some d =>
      have hfound : (storeLookup (fingerprint r) st).isSome = true := by
        rw [hl]; rfl
      have h := ingestOne_of_found hfound
      rw [h]
      exact h

theorem ingestNTimes_fixed (r : PyDict) :
    ∀ (m : Nat) (st : Store),
      ingestNTimes m r (ingestOne st r).1 = (ingestOne st r).1 := by
  intro m
  induction m with
  | zero => intro st; rfl
  | succ m ih =>
      intro st
      show ingestNTimes m r (ingestOne (ingestOne st r).1 r).1 = _
      rw [ingestOne_absorb]
      exact ih st

theorem ingestFold_fst (rs : List PyDict) :
    ∀ (p : Store × List DealAlert),
      (rs.foldl (fun acc r =>
        let (st', as) := ingestOne acc.1 r
        (st', acc.2 ++ as)) p).1 = ingestStore p.1 rs := by
  induction rs with
  | nil => intro p; rfl
  | cons r rest ih =>
      intro p
      simp only [List.foldl_cons, ingestStore]
      cases h : ingestOne p.1 r with
      | mk st' as =>
          have := ih (st', p.2 ++ as)
          simp only [h, ingestStore] at this ⊢
          exact this

theorem ingestList_fst (st : Store) (rs : List PyDict) :
    (ingestList st rs).1 = ingestStore st rs :=
  ingestFold_fst rs (st, [])

theorem ingestStore_mem :
    ∀ (rs : List PyDict) (st : Store) (fp : String),
      fp ∈ storeKeys (ingestStore st rs) ↔
        fp ∈ storeKeys st ∨ fp ∈ rs.map fingerprint := by
  intro rs
  induction rs with
  | nil => intro st fp; simp [ingestStore]
  | cons r rest ih =>
      intro st fp
      show fp ∈ storeKeys (ingestStore (ingestOne st r).1 rest) ↔ _
      rw [ih, ingestOne_fst_mem]
      simp only [List.map_cons, List.mem_cons]
      tauto

theorem ingestStore_nodup :
    ∀ (rs : List PyDict) (st : Store),
      (storeKeys st).Nodup → (storeKeys (ingestStore st rs)).Nodup := by
  intro rs
  induction rs with
  | nil => intro st h; exact h
  | cons r rest ih =>
      intro st h
      exact ih _ (ingestOne_fst_nodup r st h)

/-- Claim C1: ingest is idempotent — a record whose fingerprint is already
present causes no write and no alert; an absent record is stored under
`_id = fingerprint`; ingesting one record any positive number of times into
an empty store leaves exactly one entry; and after ingesting any batch into
an empty store the stored ids are exactly the distinct fingerprints of the
batch (each at most once). -/
theorem spec_C1_dedup_idempotent :
    (∀ (r : PyDict) (st : Store),
      (storeLookup (fingerprint r) st).isSome = true →
        ingestOne st r = (st, [])) ∧
    (∀ (r : PyDict) (st : Store),
      storeLookup (fingerprint r) st = none →
        (ingestOne st r).1 =
          st ++ [(fingerprint r, dictSet r "_id" (.VStr (fingerprint r)))]) ∧
    (∀ (m : Nat) (r : PyDict), (ingestNTimes (m + 1) r []).length = 1) ∧
    (∀ (rs : List PyDict) (fp : String),
      fp ∈ storeKeys (ingestList [] rs).1 ↔ fp ∈ rs.map fingerprint) ∧
    (∀ rs : List PyDict, (storeKeys (ingestList [] rs).1).Nodup) := by
  refine ⟨?_, ?_, ?_, ?_, ?_⟩
  · intro r st h; exact ingestOne_of_found h
  · intro r st h; rw [ingestOne_of_absent h]
  · intro m r
    show (ingestNTimes m r (ingestOne [] r).1).length = 1
    rw [ingestNTimes_fixed r m []]
    rw [ingestOne_of_absent (rfl : storeLookup (fingerprint r) ([] : Store) = none)]
    rfl
  · intro rs fp
    rw [ingestList_fst, ingestStore_mem]
    simp [storeKeys]
  · intro rs
    rw [ingestList_fst]
    exact ingestStore_nodup rs [] (by simp [storeKeys])

/-- A concrete record and a store already holding it, for the witness. -/
def recW : PyDict := [("a", PyVal.VInt 1)]

/-- The store after ingesting `recW` once into an empty store. -/
def stW : Store := (ingestOne [] recW).1

/-- Witness for C1 at the concrete record `\x7b'a': 1\x7d`: re-ingesting
into a store that holds it is a no-op, and the first ingest stores it under
its fingerprint. -/
theorem spec_C1_witness :
    ingestOne stW recW = (stW, []) ∧
    (ingestOne [] recW).1 =
      [] ++ [(fingerprint recW, dictSet recW "_id" (.VStr (fingerprint recW)))] :=
  ⟨spec_C1_dedup_idempotent.1 recW stW (by rfl),
   spec_C1_dedup_idempotent.2.1 recW [] (by rfl)⟩

/-! ## Claims C3/C4: retry and backoff behaviour of the fetchers -/

/-- An attempt outcome the code classifies as retryable: a retryable HTTP
status, a connection error, or a timeout. -/
def retryableFail : AttemptOutcome → Bool
  | .resp s _ => retryableStatus s
  | .connErr => true
  | .timeoutErr => true
  | .reqErr => false

/-- Same classification for `get_deal`'s attempts. -/
def gRetryableFail : GOutcome → Bool
  | .resp s _ => retryableStatus s
  | .connErr => true
  | .timeoutErr => true
  | .reqErr => false

theorem retryable_raises {s : Nat} (h : retryableStatus s = true) :
    raisesForStatus s = true := by
  simp only [retryableStatus, Bool.or_eq_true, decide_eq_true_eq] at h
  simp only [raisesForStatus, Bool.and_eq_true, decide_eq_true_eq]
  omega

theorem fetchAux_all_retryable (oracle : Nat → AttemptOutcome) (m : Nat)
    (b : ℚ) (hall : ∀ n, retryableFail (oracle n) = true) :
    ∀ (fuel attempt : Nat), attempt + fuel = m + 1 →
      fetchAux oracle m b attempt fuel =
        ⟨none, fuel, (List.range (fuel - 1)).map (fun i => b * 2 ^ (attempt + i))⟩ := by
  intro fuel
  induction fuel with
  | zero => intro attempt _; rfl
  | succ fuel ih =>
      intro attempt hsum
      have hrec : attempt < m → fetchAux oracle m b (attempt + 1) fuel =
          ⟨none, fuel, (List.range (fuel - 1)).map (fun i => b * 2 ^ (attempt + 1 + i))⟩ :=
        fun _ => ih (attempt + 1) (by omega)
      have hsl : attempt < m →
          (b * 2 ^ attempt :: (List.range (fuel - 1)).map (fun i => b * 2 ^ (attempt + 1 + i))) =
            (List.range fuel).map (fun i => b * 2 ^ (attempt + i)) := by
        intro hlt
        have hf : fuel = (fuel - 1) + 1 := by omega
        conv_rhs => rw [hf, List.range_succ_eq_map]
        simp only [List.map_cons, List.map_map, Nat.add_zero]
        congr 1
        apply List.map_congr_left
        intro i _
        have he : attempt + 1 + i = attempt + Nat.succ i := by omega
        simp [Function.comp, he]
      case succ =>
        cases ho : oracle attempt with
        | resp s body =>
            have hrs : retryableStatus s = true := by
              have := hall attempt; rw [ho] at this; exact this
            by_cases hlt : attempt < m
            · simp only [fetchAux, ho, retryable_raises hrs, if_true, hrs,
                true_and, hlt, if_pos, hrec hlt, retryStep]
              exact congrArg _ (by simpa using hsl hlt)
            · have ham : attempt = m := by omega
              have hfz : fuel = 0 := by omega
              simp [fetchAux, ho, retryable_raises hrs, hrs, hlt, hfz]
        | connErr =>
            by_cases hlt : attempt < m
            · simp only [fetchAux, ho, hlt, if_pos, hrec hlt, retryStep]
              exact congrArg _ (by simpa using hsl hlt)
            · have hfz : fuel = 0 := by omega
              simp [fetchAux, ho, hlt, hfz]
        | timeoutErr =>
            by_cases hlt : attempt < m
            · simp only [fetchAux, ho, hlt, if_pos, hrec hlt, retryStep]
              exact congrArg _ (by simpa using hsl hlt)
            · have hfz : fuel = 0 := by omega
              simp [fetchAux, ho, hlt, hfz]
        | reqErr =>
            have := hall attempt; rw [ho] at this; exact absurd this (by decide)

theorem getDealAux_all_retryable (oracle : Nat → GOutcome) (m : Nat)
    (b : ℚ) (hall : ∀ n, gRetryableFail (oracle n) = true) :
    ∀ (fuel attempt : Nat), attempt + fuel = m + 1 →
      getDealAux oracle m b attempt fuel =
        ⟨.failure, fuel, (List.range (fuel - 1)).map (fun i => b * 2 ^ (attempt + i))⟩ := by
  intro fuel
  induction fuel with
  | zero => intro attempt _; rfl
  | succ fuel ih =>
      intro attempt hsum
      have hrec : attempt < m → getDealAux oracle m b (attempt + 1) fuel =
          ⟨.failure, fuel, (List.range (fuel - 1)).map (fun i => b * 2 ^ (attempt + 1 + i))⟩ :=
        fun _ => ih (attempt + 1) (by omega)
      have hsl : attempt < m →
          (b * 2 ^ attempt :: (List.range (fuel - 1)).map (fun i => b * 2 ^ (attempt + 1 + i))) =
            (List.range fuel).map (fun i => b * 2 ^ (attempt + i)) := by
        intro hlt
        have hf : fuel = (fuel - 1) + 1 := by omega
        conv_rhs => rw [hf, List.range_succ_eq_map]
        simp only [List.map_cons, List.map_map, Nat.add_zero]
        congr 1
        apply List.map_congr_left
        intro i _
        have he : attempt + 1 + i = attempt + Nat.succ i := by omega
        simp [Function.comp, he]
      case succ =>
        cases ho : oracle attempt with
        | resp s body =>
            have hrs : retryableStatus s = true := by
              have := hall attempt; rw [ho] at this; exact this
            by_cases hlt : attempt < m
            · simp only [getDealAux, ho, retryable_raises hrs, if_true, hrs,
                true_and, hlt, if_pos, hrec hlt, gRetryStep]
              exact congrArg _ (by simpa using hsl hlt)
            · have hfz : fuel = 0 := by omega
              simp [getDealAux, ho, retryable_raises hrs, hrs, hlt, hfz]
        | connErr =>
            by_cases hlt : attempt < m
            · simp only [getDealAux, ho, hlt, if_pos, hrec hlt, gRetryStep]
              exact congrArg _ (by simpa using hsl hlt)
            · have hfz : fuel = 0 := by omega
              simp [getDealAux, ho, hlt, hfz]
        | timeoutErr =>
            by_cases hlt : attempt < m
            · simp only [getDealAux, ho, hlt, if_pos, hrec hlt, gRetryStep]
              exact congrArg _ (by simpa using hsl hlt)
            · have hfz : fuel = 0 := by omega
              simp [getDealAux, ho, hlt, hfz]
        | reqErr =>
            have := hall attempt; rw [ho] at this; exact absurd this (by decide)

/-- Claim C3: when every attempt fails retryably, both fetchers make
exactly `max_retries + 1` attempts, sleeping `backoff_factor * 2 ^ n` after
attempt `n` for `n = 0, ..., max_retries - 1`; in particular for
`max_retries = 3, backoff_factor = 0.3` there are 4 attempts with sleeps
`0.3, 0.6, 1.2` seconds. -/
theorem spec_C3_backoff_schedule :
    (∀ (oracle : Nat → AttemptOutcome) (m : Nat) (b : ℚ),
      (∀ n, retryableFail (oracle n) = true) →
      fetch_binance_lead_details oracle m b =
        ⟨none, m + 1, (List.range m).map (fun n => b * 2 ^ n)⟩) ∧
    (∀ (oracle : Nat → GOutcome) (m : Nat) (b : ℚ),
      (∀ n, gRetryableFail (oracle n) = true) →
      get_deal oracle m b =
        ⟨.failure, m + 1, (List.range m).map (fun n => b * 2 ^ n)⟩) ∧
    fetch_binance_lead_details (fun _ => .connErr) 3 (3 / 10) =
      ⟨none, 4, [3 / 10, 3 / 5, 6 / 5]⟩ := by
  refine ⟨?_, ?_, ?_⟩ <;> try skip
  · intro oracle m b hall
    rw [fetch_binance_lead_details,
      fetchAux_all_retryable oracle m b hall (m + 1) 0 (by omega)]
    simp
  · intro oracle m b hall
    rw [get_deal,
      getDealAux_all_retryable oracle m b hall (m + 1) 0 (by omega)]
    simp
  · rw [fetch_binance_lead_details,
      fetchAux_all_retryable (fun _ => .connErr) 3 (3 / 10) (fun _ => rfl) 4 0
        (by omega)]
    norm_num [List.range_succ, FetchResult.mk.injEq]

/-- Witness for C3 at `max_retries = 3, backoff_factor = 3/10`, every
attempt a connection error (resp. timeout for `get_deal`). -/
theorem spec_C3_witness :
    fetch_binance_lead_details (fun _ => .connErr) 3 (3 / 10) =
      ⟨none, 3 + 1, (List.range 3).map (fun n => (3 / 10 : ℚ) * 2 ^ n)⟩ ∧
    get_deal (fun _ => .timeoutErr) 3 (3 / 10) =
      ⟨.failure, 3 + 1, (List.range 3).map (fun n => (3 / 10 : ℚ) * 2 ^ n)⟩ :=
  ⟨spec_C3_backoff_schedule.1 (fun _ => .connErr) 3 (3 / 10) (fun _ => rfl),
   spec_C3_backoff_schedule.2.1 (fun _ => .timeoutErr) 3 (3 / 10) (fun _ => rfl)⟩

/-- Claim C4 counterexample: a response with status 304 — a non-2xx status
outside the retryable set — does not make the fetch return a failure: since
`raise_for_status` only raises for 400-599, the fetch returns it as a
success immediately. -/
theorem spec_C4_counterexample :
    retryableStatus 304 = false ∧
    fetch_binance_lead_details (fun _ => .resp 304 "x") 3 (3 / 10) =
      ⟨some (304, "x"), 1, []⟩ :=
  ⟨rfl, rfl⟩

/-- Claim C4 as amended: a retryable status with attempts remaining sleeps
and retries; a non-retryable status in 400-599 fails immediately with no
retry regardless of remaining attempts; connection and timeout failures
retry up to the policy limit; any other transport failure is immediately
terminal; and a status outside 400-599 (even a non-2xx one) is returned as
a success. -/
theorem spec_C4_classification :
    (∀ (oracle : Nat → AttemptOutcome) (m : Nat) (b : ℚ) (s : Nat) (body : String),
      oracle 0 = .resp s body → retryableStatus s = true → 0 < m →
        fetch_binance_lead_details oracle m b =
          retryStep b 0 (fetchAux oracle m b 1 m)) ∧
    (∀ (oracle : Nat → AttemptOutcome) (m : Nat) (b : ℚ) (s : Nat) (body : String),
      oracle 0 = .resp s body → raisesForStatus s = true →
        retryableStatus s = false →
        fetch_binance_lead_details oracle m b = ⟨none, 1, []⟩) ∧
    (∀ (m : Nat) (b : ℚ),
      (fetch_binance_lead_details (fun _ => .connErr) m b).attempts = m + 1 ∧
      (fetch_binance_lead_details (fun _ => .timeoutErr) m b).attempts = m + 1) ∧
    (∀ (oracle : Nat → AttemptOutcome) (m : Nat) (b : ℚ),
      oracle 0 = .reqErr →
        fetch_binance_lead_details oracle m b = ⟨none, 1, []⟩) ∧
    (∀ (oracle : Nat → AttemptOutcome) (m : Nat) (b : ℚ) (s : Nat) (body : String),
      oracle 0 = .resp s body → raisesForStatus s = false →
        fetch_binance_lead_details oracle m b = ⟨some (s, body), 1, []⟩) := by
  refine ⟨?_, ?_, ?_, ?_, ?_⟩
  · intro oracle m b s body ho hrs hm
    obtain ⟨m', rfl⟩ : ∃ m', m = m' + 1 := ⟨m - 1, by omega⟩
    simp [fetch_binance_lead_details, fetchAux, ho, retryable_raises hrs, hrs]
  · intro oracle m b s body ho hraise hrs
    simp [fetch_binance_lead_details, fetchAux, ho, hraise, hrs]
  · intro m b
    constructor
    · rw [fetch_binance_lead_details,
        fetchAux_all_retryable (fun _ => .connErr) m b (fun _ => rfl) (m + 1) 0
          (by omega)]
    · rw [fetch_binance_lead_details,
        fetchAux_all_retryable (fun _ => .timeoutErr) m b (fun _ => rfl) (m + 1) 0
          (by omega)]
  · intro oracle m b ho
    simp [fetch_binance_lead_details, fetchAux, ho]
  · intro oracle m b s body ho hraise
    simp [fetch_binance_lead_details, fetchAux, ho, hraise]

/-- The oracle of C4's witness: 503 on the first attempt, then success. -/
def oracle503 : Nat → AttemptOutcome :=
  fun n => if n = 0 then .resp 503 "e" else .resp 200 "ok"

/-- Witness for C4 at concrete inputs: a first-attempt 503 with retries
remaining retries; a 404 fails in one attempt; a connection error retries to
the limit; a first-attempt `RequestException` fails in one attempt; a 204
response is returned as a success in one attempt. -/
theorem spec_C4_witness :
    fetch_binance_lead_details oracle503 3 (3 / 10) =
      retryStep (3 / 10) 0 (fetchAux oracle503 3 (3 / 10) 1 3) ∧
    fetch_binance_lead_details (fun _ => .resp 404 "nf") 3 (3 / 10) =
      ⟨none, 1, []⟩ ∧
    (fetch_binance_lead_details (fun _ => .connErr) 3 (3 / 10)).attempts = 3 + 1 ∧
    fetch_binance_lead_details (fun _ => .reqErr) 3 (3 / 10) = ⟨none, 1, []⟩ ∧
    fetch_binance_lead_details (fun _ => .resp 204 "nc") 3 (3 / 10) =
      ⟨some (204, "nc"), 1, []⟩ :=
  ⟨spec_C4_classification.1 oracle503 3 (3 / 10) 503 "e" rfl rfl (by decide),
   spec_C4_classification.2.1 (fun _ => .resp 404 "nf") 3 (3 / 10) 404 "nf"
     rfl rfl rfl,
   (spec_C4_classification.2.2.1 3 (3 / 10)).1,
   spec_C4_classification.2.2.2.1 (fun _ => .reqErr) 3 (3 / 10) rfl,
   spec_C4_classification.2.2.2.2 (fun _ => .resp 204 "nc") 3 (3 / 10) 204 "nc"
     rfl rfl⟩

/-- Claim C5: evaluating `get_deal` at a malformed success envelope — HTTP
200, body `\x7b"code": "000000", "data": \x7b\x7d\x7d` (or with no `data`
member at all) — shows the uncaught `KeyError` from
`result.get("data", \x7b\x7d)['list']` escaping the function, contradicting
the never-raises guarantee. -/
theorem spec_C5_uncaught_keyerror :
    (get_deal
      (fun _ => .resp 200 (.ok (.jobj [("code", .jstr "000000"), ("data", .jobj [])])))
      3 (3 / 10)).outcome = .exc "KeyError" ∧
    (get_deal
      (fun _ => .resp 200 (.ok (.jobj [("code", .jstr "000000")])))
      3 (3 / 10)).outcome = .exc "KeyError" :=
  ⟨rfl, rfl⟩

/-! ## Claim C6: failure shape of the embedded-JSON parser -/

/-- A fetched document with no `__APP_DATA` element. -/
def docNoMarker : Document := [("other", .ok (.jobj []))]

/-- A fetched document whose `__APP_DATA` text is not valid JSON. -/
def docBadJson : Document := [("__APP_DATA", .invalid)]

/-- A fetched document with valid JSON missing the extraction path. -/
def docBadPath : Document := [("__APP_DATA", .ok (.jobj [("appState", .jobj [])]))]

/-- A fetched document whose `queries` array is too short for index 1. -/
def docShortQueries : Document :=
  [("__APP_DATA",
    .ok (.jobj [("appState",
      .jobj [("loader",
        .jobj [("dataByRouteId",
          .jobj [("d6a9",
            .jobj [("dehydratedState",
              .jobj [("queries", .jarr [.jnull])])])])])])]))]

/-- The target object of a fully well-formed document. -/
def goodUserData : JVal := .jobj [("currentCopyCount", .jnum 1234)]

/-- A fully well-formed fetched document. -/
def docGood : Document :=
  [("__APP_DATA",
    .ok (.jobj [("appState",
      .jobj [("loader",
        .jobj [("dataByRouteId",
          .jobj [("d6a9",
            .jobj [("dehydratedState",
              .jobj [("queries",
                .jarr [.jnull,
                  .jobj [("state",
                    .jobj [("data",
                      .jobj [("data", goodUserData)])])]])])])])])])]))]

/-- Claim C6 counterexample: the three failure classes do not yield
distinguishable results — a missing marker, an invalid JSON text and a
failing path traversal all return exactly the same value, `None`. -/
theorem spec_C6_counterexample :
    parse_binance_lead_data "L" (some docBadJson) =
      parse_binance_lead_data "L" (some docBadPath) ∧
    parse_binance_lead_data "L" (some docNoMarker) =
      parse_binance_lead_data "L" (some docBadJson) ∧
    parse_binance_lead_data "L" (some docBadJson) = none :=
  ⟨rfl, rfl, rfl⟩

/-- Claim C6 as amended: at each failure stage — missing marker, invalid
JSON, missing path key, out-of-range path index — the parser returns `None`
and never a partial value; the stages are told apart only in log text, not
in the returned value; a fully well-formed document parses to the extracted
dict. -/
theorem spec_C6_parse_failures :
    (∀ (leadId : String) (doc : Document),
      doc.find? (fun e => e.1 = "__APP_DATA") = none →
        parse_binance_lead_data leadId (some doc) = none) ∧
    (∀ leadId : String, parse_binance_lead_data leadId none = none) ∧
    parse_binance_lead_data "L" (some docNoMarker) = none ∧
    parse_binance_lead_data "L" (some docBadJson) = none ∧
    parse_binance_lead_data "L" (some docBadPath) = none ∧
    parse_binance_lead_data "L" (some docShortQueries) = none ∧
    parse_binance_lead_data "L" (some docGood) = some ⟨"L", .jnum 1234, goodUserData⟩ := by
  refine ⟨?_, ?_, rfl, rfl, rfl, rfl, rfl⟩
  · intro leadId doc h
    simp [parse_binance_lead_data, h]
  · intro leadId
    rfl

/-- Witness for C6's general marker clause at the concrete marker-less
document. -/
theorem spec_C6_witness :
    parse_binance_lead_data "W" (some docNoMarker) = none :=
  spec_C6_parse_failures.1 "W" docNoMarker rfl

/-! ## Claim C2: the fingerprint function -/

/-- A record with fields `a = 1, b = 2` in that insertion order. -/
def recAB : PyDict := [("a", .VInt 1), ("b", .VInt 2)]

/-- The same field-name-to-value mapping in the opposite insertion order. -/
def recBA : PyDict := [("b", .VInt 2), ("a", .VInt 1)]

/-- `recAB` with a single field changed (`b = 3`). -/
def recAB3 : PyDict := [("a", .VInt 1), ("b", .VInt 3)]

/-- Claim C2 counterexample: two records with identical field content but
different field order have different fingerprints, because the serialized
form `str(dict)` preserves insertion order rather than sorting keys. -/
theorem spec_C2_counterexample :
    sameMapping recAB recBA = true ∧ fingerprint recAB ≠ fingerprint recBA :=
  ⟨by decide, by decide⟩

/-- Claim C2 as amended: the fingerprint is a deterministic digest of the
record's `str()` serialization, which preserves insertion order rather than
sorting keys — records with equal serializations get equal fingerprints,
but identical field content in a different order can produce a different
fingerprint; the digests match `hashlib.md5`, and a single-field change
produces a distinct fingerprint on the concrete records. -/
theorem spec_C2_fingerprint :
    (∀ r1 r2 : PyDict, pyStrDict r1 = pyStrDict r2 →
      fingerprint r1 = fingerprint r2) ∧
    fingerprint recAB = "71171b605da0f16a3040c0df0a8be074" ∧
    fingerprint recBA = "c9d9f6959fb7544def28115c478e4c34" ∧
    fingerprint recAB3 = "a097a399b682238e39741cdcc4fe0ff9" ∧
    sameMapping recAB recBA = true ∧
    fingerprint recAB ≠ fingerprint recAB3 ∧
    fingerprint recAB ≠ fingerprint recBA := by
  have hdet : ∀ r1 r2 : PyDict, pyStrDict r1 = pyStrDict r2 →
      fingerprint r1 = fingerprint r2 := by
    intro r1 r2 h
    rw [fingerprint, fingerprint, h]
  have h1 : fingerprint recAB = "71171b605da0f16a3040c0df0a8be074" := by decide
  have h2 : fingerprint recBA = "c9d9f6959fb7544def28115c478e4c34" := by decide
  have h3 : fingerprint recAB3 = "a097a399b682238e39741cdcc4fe0ff9" := by decide
  exact ⟨hdet, h1, h2, h3, by decide,
    by rw [h1, h3]; decide, by rw [h1, h2]; decide⟩

/-- Witness for C2's determinism clause: two distinct constructions of the
same ordered record serialize identically, hence share a fingerprint. -/
theorem spec_C2_witness :
    fingerprint recAB = fingerprint ([("a", PyVal.VInt 1)] ++ [("b", PyVal.VInt 2)]) :=
  spec_C2_fingerprint.1 recAB ([("a", PyVal.VInt 1)] ++ [("b", PyVal.VInt 2)]) rfl
